import Mathlib

/-!
Verification of the layered error taxonomy of the `deep_space` blockchain
client library (file `src/error.rs`), as a shallow embedding in Lean 4.

External collaborator error types (tonic, prost, secp256k1, base64, std)
are opaque to the library: the code only stores them and forwards their
`Display` (`render`) or `Debug` (`debugRender`) output.  They are modelled
as structures carrying those two uninterpreted strings.  The library's own
enums, `From` conversions and `Display` implementations are translated
constructor by constructor from the source.
-/

namespace DeepSpace

/-- Opaque model of `tonic::transport::Error`. -/
structure TonicError where
  render : String
  debugRender : String
deriving DecidableEq

/-- Opaque model of `tonic::Status`. -/
structure Status where
  render : String
  debugRender : String
deriving DecidableEq

/-- Opaque model of `prost::DecodeError`. -/
structure DecodeError where
  render : String
  debugRender : String
deriving DecidableEq

/-- Opaque model of `prost::EncodeError`. -/
structure EncodeError where
  render : String
  debugRender : String
deriving DecidableEq

/-- Opaque model of `secp256k1::Error`. -/
structure CurveError where
  render : String
  debugRender : String
deriving DecidableEq

/-- Opaque model of `base64::DecodeError`. -/
structure Base64DecodeError where
  render : String
  debugRender : String
deriving DecidableEq

/-- Opaque model of `std::str::Utf8Error`. -/
structure Utf8Error where
  render : String
  debugRender : String
deriving DecidableEq

/-- Opaque model of `std::num::ParseIntError`. -/
structure ParseIntError where
  render : String
  debugRender : String
deriving DecidableEq

/-- Opaque model of `num_bigint::ParseBigIntError`. -/
structure ParseBigIntError where
  render : String
  debugRender : String
deriving DecidableEq

/-- Opaque model of `cosmos_sdk_proto .. TxResponse`; the code only
formats it with `Debug`. -/
structure TxResponse where
  debugRender : String
deriving DecidableEq

/-- Opaque model of `crate::utils::FeeInfo`; the code only formats it
with `Debug`. -/
structure FeeInfo where
  debugRender : String
deriving DecidableEq

/-- Opaque model of `crate::mnemonic::Language`; the code only formats it
with `Debug` inside a vector. -/
structure Language where
  debugRender : String
deriving DecidableEq

/-- Model of `std::time::Duration`; the code only reads `as_millis`. -/
structure Duration where
  millis : Nat
deriving DecidableEq

/-- The external `bech32::Error` enum (bech32 crate), the input of the
`From<bech32::Error>` impls in `error.rs`. -/
inductive Bech32Error where
  | MissingSeparator
  | InvalidChecksum
  | InvalidLength
  | InvalidChar (c : Char)
  | InvalidData (d : Nat)
  | InvalidPadding
  | MixedCase
deriving DecidableEq

/-- `enum ArrayStringError` from `error.rs`. -/
inductive ArrayStringError where
  | TooLong
deriving DecidableEq

/-- `enum ByteDecodeError` from `error.rs`. -/
inductive ByteDecodeError where
  | DecodeError (v : Utf8Error)
  | ParseError (v : ParseIntError)
deriving DecidableEq

/-- `enum AddressError` from `error.rs`. -/
inductive AddressError where
  | Bech32WrongLength
  | Bech32InvalidBase32
  | Bech32InvalidEncoding
  | HexDecodeError (v : ByteDecodeError)
  | HexDecodeErrorWrongLength
  | PrefixTooLong (v : ArrayStringError)
  | BytesDecodeErrorWrongLength
deriving DecidableEq

/-- `enum PublicKeyError` from `error.rs`. -/
inductive PublicKeyError where
  | Bech32WrongLength
  | Bech32InvalidBase32
  | Bech32InvalidEncoding
  | HexDecodeError (v : ByteDecodeError)
  | Base64DecodeError (v : Base64DecodeError)
  | HexDecodeErrorWrongLength
  | BytesDecodeErrorWrongLength
  | PrefixTooLong (v : ArrayStringError)
deriving DecidableEq

/-- `enum Bip39Error` from `error.rs`. -/
inductive Bip39Error where
  | BadWordCount (c : Nat)
  | UnknownWord (w : String)
  | BadEntropyBitCount (c : Nat)
  | InvalidChecksum
  | AmbiguousWordList (langs : List Language)
deriving DecidableEq

/-- `enum HdWalletError` from `error.rs`. -/
inductive HdWalletError where
  | Bip39Error (v : Bip39Error)
  | InvalidPathSpec (s : String)
deriving DecidableEq

/-- `enum PrivateKeyError` from `error.rs`. -/
inductive PrivateKeyError where
  | HexDecodeError (v : ByteDecodeError)
  | HexDecodeErrorWrongLength
  | CurveError (v : CurveError)
  | EncodeError (v : EncodeError)
  | PublicKeyError (v : PublicKeyError)
  | AddressError (v : AddressError)
  | HdWalletError (v : HdWalletError)
deriving DecidableEq

/-- `enum CosmosGrpcError` from `error.rs`. -/
inductive CosmosGrpcError where
  | NoToken
  | BadResponse (s : String)
  | BadStruct (s : String)
  | SigningError (error : PrivateKeyError)
  | ConnectionError (error : TonicError)
  | RequestError (error : Status)
  | DecodeError (error : DecodeError)
  | BadInput (s : String)
  | ChainNotRunning
  | NodeNotSynced
  | InvalidPrefix
  | NoBlockProduced (time : Duration)
  | TransactionFailed (tx : TxResponse) (time : Duration)
  | InsufficientFees (feeInfo : FeeInfo)
  | ParseError (error : ParseBigIntError)
  | InvalidAccount (typeUrl : String)
deriving DecidableEq

/-- `impl From<TonicError> for CosmosGrpcError` (error.rs:100-104). -/
def CosmosGrpcError.fromTonicError (error : TonicError) : CosmosGrpcError :=
  CosmosGrpcError.ConnectionError error

/-- `impl From<Status> for CosmosGrpcError` (error.rs:106-110). -/
def CosmosGrpcError.fromStatus (error : Status) : CosmosGrpcError :=
  CosmosGrpcError.RequestError error

/-- `impl From<ArrayStringError> for CosmosGrpcError` (error.rs:112-116):
the argument is ignored (`_error`). -/
def CosmosGrpcError.fromArrayStringError (_error : ArrayStringError) : CosmosGrpcError :=
  CosmosGrpcError.InvalidPrefix

/-- `impl From<DecodeError> for CosmosGrpcError` (error.rs:118-122). -/
def CosmosGrpcError.fromDecodeError (error : DeepSpace.DecodeError) : CosmosGrpcError :=
  CosmosGrpcError.DecodeError error

/-- `impl From<PrivateKeyError> for CosmosGrpcError` (error.rs:124-128). -/
def CosmosGrpcError.fromPrivateKeyError (error : PrivateKeyError) : CosmosGrpcError :=
  CosmosGrpcError.SigningError error

/-- `impl From<ArrayStringError> for AddressError` (error.rs:157-161). -/
def AddressError.fromArrayStringError (error : ArrayStringError) : AddressError :=
  AddressError.PrefixTooLong error

/-- `impl From<bech32::Error> for AddressError` (error.rs:163-175). -/
def AddressError.fromBech32Error : Bech32Error → AddressError
  | Bech32Error.InvalidLength => AddressError.Bech32WrongLength
  | Bech32Error.InvalidChar _ => AddressError.Bech32InvalidBase32
  | Bech32Error.InvalidData _ => AddressError.Bech32InvalidEncoding
  | Bech32Error.InvalidChecksum => AddressError.Bech32InvalidEncoding
  | Bech32Error.InvalidPadding => AddressError.Bech32InvalidEncoding
  | Bech32Error.MixedCase => AddressError.Bech32InvalidEncoding
  | Bech32Error.MissingSeparator => AddressError.Bech32InvalidEncoding

/-- `impl From<ArrayStringError> for PublicKeyError` (error.rs:225-229). -/
def PublicKeyError.fromArrayStringError (error : ArrayStringError) : PublicKeyError :=
  PublicKeyError.PrefixTooLong error

/-- `impl From<bech32::Error> for PublicKeyError` (error.rs:231-243). -/
def PublicKeyError.fromBech32Error : Bech32Error → PublicKeyError
  | Bech32Error.InvalidLength => PublicKeyError.Bech32WrongLength
  | Bech32Error.InvalidChar _ => PublicKeyError.Bech32InvalidBase32
  | Bech32Error.InvalidData _ => PublicKeyError.Bech32InvalidEncoding
  | Bech32Error.InvalidChecksum => PublicKeyError.Bech32InvalidEncoding
  | Bech32Error.InvalidPadding => PublicKeyError.Bech32InvalidEncoding
  | Bech32Error.MixedCase => PublicKeyError.Bech32InvalidEncoding
  | Bech32Error.MissingSeparator => PublicKeyError.Bech32InvalidEncoding

/-- `impl From<CurveError> for PrivateKeyError` (error.rs:272-276). -/
def PrivateKeyError.fromCurveError (error : DeepSpace.CurveError) : PrivateKeyError :=
  PrivateKeyError.CurveError error

/-- `impl From<HdWalletError> for PrivateKeyError` (error.rs:278-282). -/
def PrivateKeyError.fromHdWalletError (error : DeepSpace.HdWalletError) : PrivateKeyError :=
  PrivateKeyError.HdWalletError error

/-- `impl From<PublicKeyError> for PrivateKeyError` (error.rs:284-288). -/
def PrivateKeyError.fromPublicKeyError (error : DeepSpace.PublicKeyError) : PrivateKeyError :=
  PrivateKeyError.PublicKeyError error

/-- `impl From<AddressError> for PrivateKeyError` (error.rs:290-294). -/
def PrivateKeyError.fromAddressError (error : DeepSpace.AddressError) : PrivateKeyError :=
  PrivateKeyError.AddressError error

/-- `impl From<EncodeError> for PrivateKeyError` (error.rs:296-300). -/
def PrivateKeyError.fromEncodeError (error : DeepSpace.EncodeError) : PrivateKeyError :=
  PrivateKeyError.EncodeError error

/-- `impl From<ByteDecodeError> for PrivateKeyError` (error.rs:302-306). -/
def PrivateKeyError.fromByteDecodeError (error : ByteDecodeError) : PrivateKeyError :=
  PrivateKeyError.HexDecodeError error

/-- Modelled from the spec: the automatic conversion from `AddressError`
into `PublicKeyError` (spec section 4.3: "shares every other variant
verbatim with AddressError via an automatic conversion").  The `From`
impl itself is not in `src/`; only the two enum declarations are.  Each
variant maps verbatim to the same-named variant. -/
def PublicKeyError.fromAddressError : AddressError → PublicKeyError
  | AddressError.Bech32WrongLength => PublicKeyError.Bech32WrongLength
  | AddressError.Bech32InvalidBase32 => PublicKeyError.Bech32InvalidBase32
  | AddressError.Bech32InvalidEncoding => PublicKeyError.Bech32InvalidEncoding
  | AddressError.HexDecodeError v => PublicKeyError.HexDecodeError v
  | AddressError.HexDecodeErrorWrongLength => PublicKeyError.HexDecodeErrorWrongLength
  | AddressError.PrefixTooLong v => PublicKeyError.PrefixTooLong v
  | AddressError.BytesDecodeErrorWrongLength => PublicKeyError.BytesDecodeErrorWrongLength

/-- Modelled from the spec: the conversion wrapping a `Bip39Error` into
`HdWalletError` (spec section 4.4: "HdWalletError wraps the above").  The
conversion is not in `src/`; only the wrap variant is declared there. -/
def HdWalletError.fromBip39Error (error : DeepSpace.Bip39Error) : HdWalletError :=
  HdWalletError.Bip39Error error

/-- `impl Display for ArrayStringError` (error.rs:374-382). -/
def ArrayStringError.render : ArrayStringError → String
  | ArrayStringError.TooLong => "This string is too long!"

/-- Derived `Debug` for `ArrayStringError` (error.rs:369). -/
def ArrayStringError.debugRender : ArrayStringError → String
  | ArrayStringError.TooLong => "TooLong"

/-- `impl Display for ByteDecodeError` (error.rs:183-190). -/
def ByteDecodeError.render : ByteDecodeError → String
  | ByteDecodeError.DecodeError v => "ByteDecodeError " ++ v.render
  | ByteDecodeError.ParseError v => "ByteParseError " ++ v.render

/-- Derived `Debug` for `ByteDecodeError` (error.rs:177). -/
def ByteDecodeError.debugRender : ByteDecodeError → String
  | ByteDecodeError.DecodeError v => "DecodeError(" ++ v.debugRender ++ ")"
  | ByteDecodeError.ParseError v => "ParseError(" ++ v.debugRender ++ ")"

/-- `impl Display for AddressError` (error.rs:141-153). -/
def AddressError.render : AddressError → String
  | AddressError.Bech32WrongLength => "Bech32WrongLength"
  | AddressError.Bech32InvalidBase32 => "Bech32InvalidBase32"
  | AddressError.Bech32InvalidEncoding => "Bech32InvalidEncoding"
  | AddressError.HexDecodeError v => "HexDecodeError " ++ v.render
  | AddressError.HexDecodeErrorWrongLength => "HexDecodeError Wrong Length"
  | AddressError.PrefixTooLong v => "Prefix too long " ++ v.render
  | AddressError.BytesDecodeErrorWrongLength => "BytesDecodeError Wrong Length"

/-- Derived `Debug` for `AddressError` (error.rs:130). -/
def AddressError.debugRender : AddressError → String
  | AddressError.Bech32WrongLength => "Bech32WrongLength"
  | AddressError.Bech32InvalidBase32 => "Bech32InvalidBase32"
  | AddressError.Bech32InvalidEncoding => "Bech32InvalidEncoding"
  | AddressError.HexDecodeError v => "HexDecodeError(" ++ v.debugRender ++ ")"
  | AddressError.HexDecodeErrorWrongLength => "HexDecodeErrorWrongLength"
  | AddressError.PrefixTooLong v => "PrefixTooLong(" ++ v.debugRender ++ ")"
  | AddressError.BytesDecodeErrorWrongLength => "BytesDecodeErrorWrongLength"

/-- `impl Display for PublicKeyError` (error.rs:206-221). -/
def PublicKeyError.render : PublicKeyError → String
  | PublicKeyError.Bech32WrongLength => "Bech32WrongLength"
  | PublicKeyError.Bech32InvalidBase32 => "Bech32InvalidBase32"
  | PublicKeyError.Bech32InvalidEncoding => "Bech32InvalidEncoding"
  | PublicKeyError.HexDecodeError v => "HexDecodeError " ++ v.render
  | PublicKeyError.Base64DecodeError v => "Base64DecodeError " ++ v.render
  | PublicKeyError.BytesDecodeErrorWrongLength => "BytesDecodeError Wrong Length"
  | PublicKeyError.HexDecodeErrorWrongLength => "HexDecodeError Wrong Length"
  | PublicKeyError.PrefixTooLong v => "Prefix too long " ++ v.render

/-- Derived `Debug` for `PublicKeyError` (error.rs:194). -/
def PublicKeyError.debugRender : PublicKeyError → String
  | PublicKeyError.Bech32WrongLength => "Bech32WrongLength"
  | PublicKeyError.Bech32InvalidBase32 => "Bech32InvalidBase32"
  | PublicKeyError.Bech32InvalidEncoding => "Bech32InvalidEncoding"
  | PublicKeyError.HexDecodeError v => "HexDecodeError(" ++ v.debugRender ++ ")"
  | PublicKeyError.Base64DecodeError v => "Base64DecodeError(" ++ v.debugRender ++ ")"
  | PublicKeyError.HexDecodeErrorWrongLength => "HexDecodeErrorWrongLength"
  | PublicKeyError.BytesDecodeErrorWrongLength => "BytesDecodeErrorWrongLength"
  | PublicKeyError.PrefixTooLong v => "PrefixTooLong(" ++ v.debugRender ++ ")"

/-- `Debug` of a `Vec<Language>`, as used by `Bip39Error`'s `Display`. -/
def languageListDebug (langs : List Language) : String :=
  "[" ++ String.intercalate ", " (langs.map (fun l => l.debugRender)) ++ "]"

/-- `impl Display for Bip39Error` (error.rs:340-362). -/
def Bip39Error.render : Bip39Error → String
  | Bip39Error.BadWordCount c =>
      "mnemonic has a word count that is not a multiple of 6: " ++ toString c
  | Bip39Error.UnknownWord w => "mnemonic contains an unknown word: " ++ w
  | Bip39Error.BadEntropyBitCount c =>
      "entropy was not between 128-256 bits or not a multiple of 32 bits: "
        ++ toString c ++ " bits"
  | Bip39Error.InvalidChecksum => "the mnemonic has an invalid checksum"
  | Bip39Error.AmbiguousWordList langs => "ambiguous word list: " ++ languageListDebug langs

/-- `impl Debug for Bip39Error` delegates to its `Display`
(error.rs:363-367). -/
def Bip39Error.debugRender (e : Bip39Error) : String :=
  e.render

/-- `impl Display for HdWalletError` (error.rs:314-321). -/
def HdWalletError.render : HdWalletError → String
  | HdWalletError.Bip39Error v => v.render
  | HdWalletError.InvalidPathSpec s => "HDWalletError invalid path " ++ s

/-- Derived `Debug` for `HdWalletError` (error.rs:308); Rust's derived
`Debug` quotes the contained string. -/
def HdWalletError.debugRender : HdWalletError → String
  | HdWalletError.Bip39Error v => "Bip39Error(" ++ v.debugRender ++ ")"
  | HdWalletError.InvalidPathSpec s => "InvalidPathSpec(\"" ++ s ++ "\")"

/-- `impl Display for PrivateKeyError` (error.rs:256-268). -/
def PrivateKeyError.render : PrivateKeyError → String
  | PrivateKeyError.HexDecodeError v => "PrivateKeyError " ++ v.render
  | PrivateKeyError.HexDecodeErrorWrongLength => "PrivateKeyError Wrong Length"
  | PrivateKeyError.CurveError v => "Secp256k1 Error " ++ v.render
  | PrivateKeyError.EncodeError v => "Could not encode message " ++ v.render
  | PrivateKeyError.PublicKeyError v => v.render
  | PrivateKeyError.AddressError v => v.render
  | PrivateKeyError.HdWalletError v => v.render

/-- Derived `Debug` for `PrivateKeyError` (error.rs:245). -/
def PrivateKeyError.debugRender : PrivateKeyError → String
  | PrivateKeyError.HexDecodeError v => "HexDecodeError(" ++ v.debugRender ++ ")"
  | PrivateKeyError.HexDecodeErrorWrongLength => "HexDecodeErrorWrongLength"
  | PrivateKeyError.CurveError v => "CurveError(" ++ v.debugRender ++ ")"
  | PrivateKeyError.EncodeError v => "EncodeError(" ++ v.debugRender ++ ")"
  | PrivateKeyError.PublicKeyError v => "PublicKeyError(" ++ v.debugRender ++ ")"
  | PrivateKeyError.AddressError v => "AddressError(" ++ v.debugRender ++ ")"
  | PrivateKeyError.HdWalletError v => "HdWalletError(" ++ v.debugRender ++ ")"

/-- `impl Display for CosmosGrpcError` (error.rs:41-96). -/
def CosmosGrpcError.render : CosmosGrpcError → String
  | CosmosGrpcError.NoToken => "Account has no tokens! No details!"
  | CosmosGrpcError.BadResponse s => "CosmosGrpc bad response " ++ s
  | CosmosGrpcError.BadStruct s => "CosmosGrpc unexpected json returned " ++ s
  | CosmosGrpcError.BadInput s => "CosmosGrpc bad input " ++ s
  | CosmosGrpcError.DecodeError v => "CosmosGrpc bad any unpacking " ++ v.render
  | CosmosGrpcError.ConnectionError v =>
      "CosmosGrpc Connection error " ++ v.render ++ " " ++ v.debugRender
  | CosmosGrpcError.RequestError v =>
      "CosmosGrpc Request error " ++ v.render ++ " " ++ v.debugRender
  | CosmosGrpcError.ChainNotRunning => "CosmosGrpc this node is waiting on a blockchain start"
  | CosmosGrpcError.NodeNotSynced => "CosmosGrpc this node is syncing"
  | CosmosGrpcError.SigningError v =>
      "CosmosGrpc could not sign using private key " ++ v.debugRender
  | CosmosGrpcError.NoBlockProduced t =>
      "CosmosGrpc NoBlockProduced in " ++ toString t.millis ++ "ms"
  | CosmosGrpcError.InvalidPrefix => "CosmosGrpc InvalidPrefix"
  | CosmosGrpcError.TransactionFailed tx t =>
      "CosmosGrpc Transaction " ++ tx.debugRender ++ " did not enter chain in "
        ++ toString t.millis ++ "ms"
  | CosmosGrpcError.InsufficientFees fi =>
      "Insufficient fees or gas for transaction " ++ fi.debugRender
  | CosmosGrpcError.ParseError v => "Failed to Parse BigInt " ++ v.debugRender
  | CosmosGrpcError.InvalidAccount u => "CosmosGrpc could not decode account: " ++ u

/-- Modelled from the spec: mnemonic validation (spec section 4.4); the
mnemonic module itself is not in `src/`, only its `Bip39Error` type is.
The wordlist and entropy/checksum collaborators (spec section 6) are
passed in as parameters.  Checks happen in the spec's order: word count
first, then the first unknown word (short-circuiting), then entropy bit
count, then the checksum, then language ambiguity. -/
def validateMnemonic (groupSize : Nat) (inWordlist : String → Bool)
    (entropyBits : List String → Nat) (checksumOk : List String → Bool)
    (candidateLangs : List Language) (words : List String) :
    Except Bip39Error (List String) :=
  if words.length % groupSize ≠ 0 then
    Except.error (Bip39Error.BadWordCount words.length)
  else
    match words.find? (fun w => !inWordlist w) with
    | some w => Except.error (Bip39Error.UnknownWord w)
    | none =>
      let bits := entropyBits words
      if bits % 32 ≠ 0 ∨ bits < 128 ∨ 256 < bits then
        Except.error (Bip39Error.BadEntropyBitCount bits)
      else if !checksumOk words then
        Except.error Bip39Error.InvalidChecksum
      else if 1 < candidateLangs.length then
        Except.error (Bip39Error.AmbiguousWordList candidateLangs)
      else
        Except.ok words

/-- The committed transaction's result payload as inspected by the
protocol: the payload itself, whether it flags the paid fee/gas as
insufficient, and the fee information reported in that case. -/
structure TxOutcome where
  payload : TxResponse
  insufficientFee : Bool
  feeInfo : FeeInfo

/-- One poll of the Transaction-Confirmation Protocol's node queries
(spec section 4.7): whether a new block has been observed since
submission, and whether the submitted transaction appears in a committed
block, together with that committed result payload. -/
structure PollStep where
  newBlock : Bool
  included : Option TxOutcome

/-- Modelled from the spec: the polling loop of the
Transaction-Confirmation Protocol (spec section 4.7); the protocol itself
is not in `src/`, only its outcome variants of `CosmosGrpcError` are.
`fuel` is the number of polls remaining before the deadline, `i` the
index of the current poll, `anyBlock` whether any new block has been
observed so far.  Inclusion exits immediately (into `Confirmed`, or
`InsufficientFees` when the payload flags the fee); when the deadline is
reached the loop exits into `TransactionFailed` if blocks were observed
and `NoBlockProduced` otherwise, reporting the elapsed time. -/
def confirmStep (env : Nat → PollStep) (tx : TxResponse) (interval : Nat) :
    Nat → Nat → Bool → Except CosmosGrpcError TxResponse
  | 0, i, anyBlock =>
    if anyBlock then
      Except.error (CosmosGrpcError.TransactionFailed tx ⟨i * interval⟩)
    else
      Except.error (CosmosGrpcError.NoBlockProduced ⟨i * interval⟩)
  | fuel + 1, i, anyBlock =>
    match (env i).included with
    | some out =>
      if out.insufficientFee then
        Except.error (CosmosGrpcError.InsufficientFees out.feeInfo)
      else
        Except.ok out.payload
    | none => confirmStep env tx interval fuel (i + 1) (anyBlock || (env i).newBlock)

/-- Modelled from the spec: the Transaction-Confirmation Protocol
(spec section 4.7), polling `numPolls` times at `interval` milliseconds
each, so the configured deadline is `numPolls * interval` milliseconds. -/
def confirmTx (env : Nat → PollStep) (tx : TxResponse) (numPolls interval : Nat) :
    Except CosmosGrpcError TxResponse :=
  confirmStep env tx interval numPolls 0 false

/-- Whether the character list `s` occurs at the start of `t`. -/
def chStart : List Char → List Char → Bool
  | [], _ => true
  | _ :: _, [] => false
  | a :: s, b :: t => a == b && chStart s t

/-- Whether the character list `s` occurs contiguously anywhere in `t`. -/
def chSub (s : List Char) : List Char → Bool
  | [] => chStart s []
  | b :: t => chStart s (b :: t) || chSub s t

/-- Whether the string `s` occurs contiguously in the string `t`. -/
def strContains (s t : String) : Bool :=
  chSub s.data t.data

/-- The three bech32 failure buckets shared by name between
`AddressError` and `PublicKeyError`. -/
inductive Bech32Class where
  | wrongLength
  | invalidBase32
  | invalidEncoding
deriving DecidableEq

/-- The bech32 bucket named by an `AddressError` variant, when any. -/
def AddressError.bech32Class : AddressError → Option Bech32Class
  | AddressError.Bech32WrongLength => some Bech32Class.wrongLength
  | AddressError.Bech32InvalidBase32 => some Bech32Class.invalidBase32
  | AddressError.Bech32InvalidEncoding => some Bech32Class.invalidEncoding
  | _ => none

/-- The bech32 bucket named by a `PublicKeyError` variant, when any. -/
def PublicKeyError.bech32Class : PublicKeyError → Option Bech32Class
  | PublicKeyError.Bech32WrongLength => some Bech32Class.wrongLength
  | PublicKeyError.Bech32InvalidBase32 => some Bech32Class.invalidBase32
  | PublicKeyError.Bech32InvalidEncoding => some Bech32Class.invalidEncoding
  | _ => none

theorem str_data_append (a b : String) : (a ++ b).data = a.data ++ b.data :=
  rfl

theorem str_append_assoc (a b c : String) : a ++ b ++ c = a ++ (b ++ c) := by
  cases a with
  | mk xs =>
    cases b with
    | mk ys =>
      cases c with
      | mk zs => exact congrArg String.mk (List.append_assoc xs ys zs)

theorem chStart_append (s t : List Char) : chStart s (s ++ t) = true := by
  induction s with
  | nil => rfl
  | cons a s ih => simp [chStart, ih]

theorem chStart_self (s : List Char) : chStart s s = true := by
  have h := chStart_append s []
  simpa using h

theorem chSub_of_chStart (s t : List Char) (h : chStart s t = true) : chSub s t = true := by
  cases t with
  | nil =>
    cases s with
    | nil => rfl
    | cons a s => simp [chStart] at h
  | cons b t => simp [chSub, h]

theorem chSub_cons (s : List Char) (b : Char) (t : List Char)
    (h : chSub s t = true) : chSub s (b :: t) = true := by
  simp [chSub, h]

theorem chSub_append_left (s p t : List Char) (h : chSub s t = true) :
    chSub s (p ++ t) = true := by
  induction p with
  | nil => simpa using h
  | cons b p ih => simpa [List.cons_append] using chSub_cons s b (p ++ t) ih

theorem strContains_middle (s p q : String) : strContains s (p ++ (s ++ q)) = true := by
  show chSub s.data (p ++ (s ++ q)).data = true
  rw [str_data_append, str_data_append]
  exact chSub_append_left _ _ _ (chSub_of_chStart _ _ (chStart_append s.data q.data))

theorem strContains_right (s p : String) : strContains s (p ++ s) = true := by
  show chSub s.data (p ++ s).data = true
  rw [str_data_append]
  exact chSub_append_left _ _ _ (chSub_of_chStart _ _ (chStart_self s.data))

theorem strContains_self (s : String) : strContains s s = true :=
  chSub_of_chStart _ _ (chStart_self s.data)

theorem confirmStep_all_quiet (env : Nat → PollStep) (tx : TxResponse) (iv : Nat) :
    ∀ (n i : Nat),
      (∀ k, k < n → (env (i + k)).included = none ∧ (env (i + k)).newBlock = false) →
      confirmStep env tx iv n i false =
        Except.error (CosmosGrpcError.NoBlockProduced ⟨(i + n) * iv⟩) := by
  intro n
  induction n with
  | zero => intro i _; simp [confirmStep]
  | succ n ih =>
    intro i h
    have h0 := h 0 (Nat.succ_pos n)
    simp only [Nat.add_zero] at h0
    have hrec : ∀ k, k < n → (env (i + 1 + k)).included = none ∧
        (env (i + 1 + k)).newBlock = false := by
      intro k hk
      have := h (k + 1) (by omega)
      have harith : i + (k + 1) = i + 1 + k := by omega
      rwa [harith] at this
    have := ih (i + 1) hrec
    have harith : i + 1 + n = i + (n + 1) := by omega
    rw [harith] at this
    simp [confirmStep, h0.1, h0.2, this]

theorem confirmStep_true_no_inclusion (env : Nat → PollStep) (tx : TxResponse) (iv : Nat) :
    ∀ (n i : Nat),
      (∀ k, k < n → (env (i + k)).included = none) →
      confirmStep env tx iv n i true =
        Except.error (CosmosGrpcError.TransactionFailed tx ⟨(i + n) * iv⟩) := by
  intro n
  induction n with
  | zero => intro i _; simp [confirmStep]
  | succ n ih =>
    intro i h
    have h0 := h 0 (Nat.succ_pos n)
    simp only [Nat.add_zero] at h0
    have hrec : ∀ k, k < n → (env (i + 1 + k)).included = none := by
      intro k hk
      have := h (k + 1) (by omega)
      have harith : i + (k + 1) = i + 1 + k := by omega
      rwa [harith] at this
    have := ih (i + 1) hrec
    have harith : i + 1 + n = i + (n + 1) := by omega
    rw [harith] at this
    simp [confirmStep, h0, this]

theorem confirmStep_block_seen (env : Nat → PollStep) (tx : TxResponse) (iv : Nat) :
    ∀ (n i : Nat) (b : Bool),
      (∀ k, k < n → (env (i + k)).included = none) →
      (∃ k, k < n ∧ (env (i + k)).newBlock = true) →
      confirmStep env tx iv n i b =
        Except.error (CosmosGrpcError.TransactionFailed tx ⟨(i + n) * iv⟩) := by
  intro n
  induction n with
  | zero =>
    intro i b _ hex
    obtain ⟨k, hk, _⟩ := hex
    exact absurd hk (Nat.not_lt_zero k)
  | succ n ih =>
    intro i b h hex
    have h0 := h 0 (Nat.succ_pos n)
    simp only [Nat.add_zero] at h0
    have hrec : ∀ k, k < n → (env (i + 1 + k)).included = none := by
      intro k hk
      have := h (k + 1) (by omega)
      have harith : i + (k + 1) = i + 1 + k := by omega
      rwa [harith] at this
    have harith : i + 1 + n = i + (n + 1) := by omega
    obtain ⟨k, hk, hnb⟩ := hex
    cases k with
    | zero =>
      simp only [Nat.add_zero] at hnb
      have := confirmStep_true_no_inclusion env tx iv n (i + 1) hrec
      rw [harith] at this
      simp [confirmStep, h0, hnb, this]
    | succ m =>
      have hm : m < n := by omega
      have hnb' : (env (i + 1 + m)).newBlock = true := by
        have harith2 : i + (m + 1) = i + 1 + m := by omega
        rwa [harith2] at hnb
      have := ih (i + 1) (b || (env i).newBlock) hrec ⟨m, hm, hnb'⟩
      rw [harith] at this
      simp [confirmStep, h0, this]

theorem confirmStep_inclusion (env : Nat → PollStep) (tx : TxResponse) (iv : Nat) :
    ∀ (n i : Nat) (b : Bool) (k : Nat) (out : TxOutcome),
      k < n →
      (∀ m, m < k → (env (i + m)).included = none) →
      (env (i + k)).included = some out →
      confirmStep env tx iv n i b =
        (if out.insufficientFee then
          Except.error (CosmosGrpcError.InsufficientFees out.feeInfo)
        else
          Except.ok out.payload) := by
  intro n
  induction n with
  | zero => intro i b k out hk _ _; exact absurd hk (Nat.not_lt_zero k)
  | succ n ih =>
    intro i b k out hk hnone hsome
    cases k with
    | zero =>
      simp only [Nat.add_zero] at hsome
      simp [confirmStep, hsome]
    | succ m =>
      have h0 : (env i).included = none := by
        have := hnone 0 (Nat.succ_pos m)
        simpa using this
      have hm : m < n := by omega
      have hnone' : ∀ l, l < m → (env (i + 1 + l)).included = none := by
        intro l hl
        have := hnone (l + 1) (by omega)
        have harith : i + (l + 1) = i + 1 + l := by omega
        rwa [harith] at this
      have hsome' : (env (i + 1 + m)).included = some out := by
        have harith : i + (m + 1) = i + 1 + m := by omega
        rwa [harith] at hsome
      have := ih (i + 1) (b || (env i).newBlock) m out hm hnone' hsome'
      simp [confirmStep, h0, this]

theorem confirmStep_nbp_inv (env : Nat → PollStep) (tx : TxResponse) (iv : Nat) :
    ∀ (n i : Nat) (b : Bool) (d : Duration),
      confirmStep env tx iv n i b = Except.error (CosmosGrpcError.NoBlockProduced d) →
      b = false ∧
      (∀ k, k < n → (env (i + k)).included = none ∧ (env (i + k)).newBlock = false) ∧
      d = ⟨(i + n) * iv⟩ := by
  intro n
  induction n with
  | zero =>
    intro i b d heq
    cases b with
    | true => simp [confirmStep] at heq
    | false =>
      simp [confirmStep] at heq
      exact ⟨rfl, fun k hk => absurd hk (Nat.not_lt_zero k), heq.symm⟩
  | succ n ih =>
    intro i b d heq
    cases hinc : (env i).included with
    | some out =>
      rw [show confirmStep env tx iv (n + 1) i b =
        (match (env i).included with
          | some out =>
            if out.insufficientFee then
              Except.error (CosmosGrpcError.InsufficientFees out.feeInfo)
            else
              Except.ok out.payload
          | none => confirmStep env tx iv n (i + 1) (b || (env i).newBlock)) from rfl,
        hinc] at heq
      cases hfee : out.insufficientFee <;> simp [hfee] at heq
    | none =>
      rw [show confirmStep env tx iv (n + 1) i b =
        (match (env i).included with
          | some out =>
            if out.insufficientFee then
              Except.error (CosmosGrpcError.InsufficientFees out.feeInfo)
            else
              Except.ok out.payload
          | none => confirmStep env tx iv n (i + 1) (b || (env i).newBlock)) from rfl,
        hinc] at heq
      obtain ⟨hb, hall, hd⟩ := ih (i + 1) (b || (env i).newBlock) d heq
      have hb' : b = false ∧ (env i).newBlock = false := by
        cases b <;> cases hnb : (env i).newBlock <;> simp_all
      refine ⟨hb'.1, ?_, ?_⟩
      · intro k hk
        cases k with
        | zero => simpa using ⟨hinc, hb'.2⟩
        | succ m =>
          have hm : m < n := by omega
          have := hall m hm
          have harith : i + 1 + m = i + (m + 1) := by omega
          rwa [harith] at this
      · have harith : i + 1 + n = i + (n + 1) := by omega
        rwa [harith] at hd

theorem confirmStep_tf_inv (env : Nat → PollStep) (tx : TxResponse) (iv : Nat) :
    ∀ (n i : Nat) (b : Bool) (tx' : TxResponse) (d : Duration),
      confirmStep env tx iv n i b = Except.error (CosmosGrpcError.TransactionFailed tx' d) →
      tx' = tx ∧
      (∀ k, k < n → (env (i + k)).included = none) ∧
      (b = true ∨ ∃ k, k < n ∧ (env (i + k)).newBlock = true) ∧
      d = ⟨(i + n) * iv⟩ := by
  intro n
  induction n with
  | zero =>
    intro i b tx' d heq
    cases b with
    | true =>
      simp [confirmStep] at heq
      exact ⟨heq.1.symm, fun k hk => absurd hk (Nat.not_lt_zero k), Or.inl rfl, heq.2.symm⟩
    | false => simp [confirmStep] at heq
  | succ n ih =>
    intro i b tx' d heq
    cases hinc : (env i).included with
    | some out =>
      rw [show confirmStep env tx iv (n + 1) i b =
        (match (env i).included with
          | some out =>
            if out.insufficientFee then
              Except.error (CosmosGrpcError.InsufficientFees out.feeInfo)
            else
              Except.ok out.payload
          | none => confirmStep env tx iv n (i + 1) (b || (env i).newBlock)) from rfl,
        hinc] at heq
      cases hfee : out.insufficientFee <;> simp [hfee] at heq
    | none =>
      rw [show confirmStep env tx iv (n + 1) i b =
        (match (env i).included with
          | some out =>
            if out.insufficientFee then
              Except.error (CosmosGrpcError.InsufficientFees out.feeInfo)
            else
              Except.ok out.payload
          | none => confirmStep env tx iv n (i + 1) (b || (env i).newBlock)) from rfl,
        hinc] at heq
      obtain ⟨htx, hall, hor, hd⟩ := ih (i + 1) (b || (env i).newBlock) tx' d heq
      refine ⟨htx, ?_, ?_, ?_⟩
      · intro k hk
        cases k with
        | zero => simpa using hinc
        | succ m =>
          have hm : m < n := by omega
          have := hall m hm
          have harith : i + 1 + m = i + (m + 1) := by omega
          rwa [harith] at this
      · rcases hor with hb | ⟨k, hk, hnb⟩
        · cases hcb : b with
          | true => exact Or.inl rfl
          | false =>
            rw [hcb] at hb
            simp only [Bool.false_or] at hb
            exact Or.inr ⟨0, Nat.succ_pos n, by simpa using hb⟩
        · refine Or.inr ⟨k + 1, by omega, ?_⟩
          have harith : i + 1 + k = i + (k + 1) := by omega
          rwa [harith] at hnb
      · have harith : i + 1 + n = i + (n + 1) := by omega
        rwa [harith] at hd

/-- Claim C1 counterexample: the conversion of bech32 codec errors into
`AddressError` does not retain the original child value — the distinct
child values `InvalidChecksum` and `MixedCase` convert to the same
payload-free parent value, so the cause cannot be recovered from the
parent; and converting an `ArrayStringError` into `CosmosGrpcError`
yields the payload-free `InvalidPrefix` variant carrying no child value. -/
theorem c1_lossless_wrapping_counterexample :
    AddressError.fromBech32Error Bech32Error.InvalidChecksum =
      AddressError.fromBech32Error Bech32Error.MixedCase ∧
    Bech32Error.InvalidChecksum ≠ Bech32Error.MixedCase ∧
    CosmosGrpcError.fromArrayStringError ArrayStringError.TooLong =
      CosmosGrpcError.InvalidPrefix := by
  decide

/-- Claim C1 (amended): every child-to-parent conversion except the
bech32 conversions and `ArrayStringError` into `CosmosGrpcError` places
the full original child value inside the resulting parent variant; the
bech32 conversions collapse to payload-free classification variants
(merging distinct child values) and `ArrayStringError` into
`CosmosGrpcError` yields the payload-free `InvalidPrefix`. -/
theorem c1_lossless_wrapping_amended :
    (∀ v : ByteDecodeError,
      PrivateKeyError.fromByteDecodeError v = PrivateKeyError.HexDecodeError v) ∧
    (∀ v : CurveError, PrivateKeyError.fromCurveError v = PrivateKeyError.CurveError v) ∧
    (∀ v : EncodeError, PrivateKeyError.fromEncodeError v = PrivateKeyError.EncodeError v) ∧
    (∀ v : PublicKeyError,
      PrivateKeyError.fromPublicKeyError v = PrivateKeyError.PublicKeyError v) ∧
    (∀ v : AddressError,
      PrivateKeyError.fromAddressError v = PrivateKeyError.AddressError v) ∧
    (∀ v : HdWalletError,
      PrivateKeyError.fromHdWalletError v = PrivateKeyError.HdWalletError v) ∧
    (∀ v : Bip39Error, HdWalletError.fromBip39Error v = HdWalletError.Bip39Error v) ∧
    (∀ v : ArrayStringError,
      AddressError.fromArrayStringError v = AddressError.PrefixTooLong v) ∧
    (∀ v : ArrayStringError,
      PublicKeyError.fromArrayStringError v = PublicKeyError.PrefixTooLong v) ∧
    (∀ v : PrivateKeyError,
      CosmosGrpcError.fromPrivateKeyError v = CosmosGrpcError.SigningError v) ∧
    (∀ v : TonicError,
      CosmosGrpcError.fromTonicError v = CosmosGrpcError.ConnectionError v) ∧
    (∀ v : Status, CosmosGrpcError.fromStatus v = CosmosGrpcError.RequestError v) ∧
    (∀ v : DecodeError,
      CosmosGrpcError.fromDecodeError v = CosmosGrpcError.DecodeError v) ∧
    (∀ v : ArrayStringError,
      CosmosGrpcError.fromArrayStringError v = CosmosGrpcError.InvalidPrefix) ∧
    (AddressError.fromBech32Error Bech32Error.InvalidChecksum =
      AddressError.fromBech32Error Bech32Error.MixedCase) ∧
    (PublicKeyError.fromBech32Error Bech32Error.InvalidChecksum =
      PublicKeyError.fromBech32Error Bech32Error.MixedCase) :=
  ⟨fun _ => rfl, fun _ => rfl, fun _ => rfl, fun _ => rfl, fun _ => rfl, fun _ => rfl,
   fun _ => rfl, fun _ => rfl, fun _ => rfl, fun _ => rfl, fun _ => rfl, fun _ => rfl,
   fun _ => rfl, fun _ => rfl, rfl, rfl⟩

/-- Claim C2: the conversion of bech32 codec errors into `AddressError`
yields `Bech32WrongLength` exactly for the invalid-length case,
`Bech32InvalidBase32` exactly for the invalid-character case, and
`Bech32InvalidEncoding` exactly for the data/checksum/padding/case/
separator cases; in particular a corrupted-checksum error converts to
`Bech32InvalidEncoding` and never to `Bech32InvalidBase32`. -/
theorem c2_bech32_classification :
    ∀ e : Bech32Error,
      ((AddressError.fromBech32Error e = AddressError.Bech32WrongLength) ↔
        e = Bech32Error.InvalidLength) ∧
      ((AddressError.fromBech32Error e = AddressError.Bech32InvalidBase32) ↔
        ∃ c, e = Bech32Error.InvalidChar c) ∧
      ((AddressError.fromBech32Error e = AddressError.Bech32InvalidEncoding) ↔
        (e = Bech32Error.InvalidChecksum ∨ e = Bech32Error.InvalidPadding ∨
         e = Bech32Error.MixedCase ∨ e = Bech32Error.MissingSeparator ∨
         ∃ d, e = Bech32Error.InvalidData d)) ∧
      (AddressError.fromBech32Error Bech32Error.InvalidChecksum =
        AddressError.Bech32InvalidEncoding ∧
       AddressError.fromBech32Error Bech32Error.InvalidChecksum ≠
        AddressError.Bech32InvalidBase32) := by
  intro e
  cases e <;> simp [AddressError.fromBech32Error]

/-- Claim C2 witness: the corrupted-checksum case concretely converts to
`Bech32InvalidEncoding`. -/
theorem c2_bech32_classification_witness :
    AddressError.fromBech32Error Bech32Error.InvalidChecksum =
      AddressError.Bech32InvalidEncoding ∧
    AddressError.fromBech32Error Bech32Error.InvalidChecksum ≠
      AddressError.Bech32InvalidBase32 :=
  (c2_bech32_classification Bech32Error.InvalidChecksum).2.2.2

/-- Claim C4: rendering the `PrivateKeyError` obtained by wrapping the
`PublicKeyError` converted from `AddressError.Bech32WrongLength` contains
the text "Bech32WrongLength" of the innermost cause (it is in fact
exactly that text). -/
theorem c4_nested_rendering_keeps_innermost :
    strContains ("Bech32WrongLength")
      ((PrivateKeyError.fromPublicKeyError
        (PublicKeyError.fromAddressError AddressError.Bech32WrongLength)).render) = true ∧
    (PrivateKeyError.fromPublicKeyError
        (PublicKeyError.fromAddressError AddressError.Bech32WrongLength)).render =
      "Bech32WrongLength" :=
  ⟨by decide, rfl⟩

/-- Claim C5 counterexample: the rendering of
`PrivateKeyError.PublicKeyError Bech32WrongLength` is exactly the wrapped
cause's rendering "Bech32WrongLength" — it does not name the
key-material layer that produced it (no "PrivateKey" text appears). -/
theorem c5_layer_naming_counterexample :
    (PrivateKeyError.PublicKeyError PublicKeyError.Bech32WrongLength).render =
      (PublicKeyError.Bech32WrongLength).render ∧
    (PrivateKeyError.PublicKeyError PublicKeyError.Bech32WrongLength).render =
      "Bech32WrongLength" ∧
    strContains ("PrivateKey")
      ((PrivateKeyError.PublicKeyError PublicKeyError.Bech32WrongLength).render) = false :=
  ⟨rfl, rfl, by decide⟩

/-- Claim C5 (amended): the rendering of every cause-wrapping variant
contains the wrapped cause's rendering (the cause's Debug rendering for
the `SigningError` and `ParseError` variants, which format with `{:?}`),
but the pass-through variants `PrivateKeyError.PublicKeyError`,
`PrivateKeyError.AddressError`, `PrivateKeyError.HdWalletError` and
`HdWalletError.Bip39Error` render exactly the child's rendering and add
no text naming their own layer. -/
theorem c5_nested_rendering_amended :
    (∀ v : ByteDecodeError,
      strContains v.render (AddressError.HexDecodeError v).render = true) ∧
    (∀ v : ArrayStringError,
      strContains v.render (AddressError.PrefixTooLong v).render = true) ∧
    (∀ v : ByteDecodeError,
      strContains v.render (PublicKeyError.HexDecodeError v).render = true) ∧
    (∀ v : Base64DecodeError,
      strContains v.render (PublicKeyError.Base64DecodeError v).render = true) ∧
    (∀ v : ArrayStringError,
      strContains v.render (PublicKeyError.PrefixTooLong v).render = true) ∧
    (∀ v : Utf8Error,
      strContains v.render (ByteDecodeError.DecodeError v).render = true) ∧
    (∀ v : ParseIntError,
      strContains v.render (ByteDecodeError.ParseError v).render = true) ∧
    (∀ v : ByteDecodeError,
      strContains v.render (PrivateKeyError.HexDecodeError v).render = true) ∧
    (∀ v : CurveError,
      strContains v.render (PrivateKeyError.CurveError v).render = true) ∧
    (∀ v : EncodeError,
      strContains v.render (PrivateKeyError.EncodeError v).render = true) ∧
    (∀ v : PublicKeyError, (PrivateKeyError.PublicKeyError v).render = v.render) ∧
    (∀ v : AddressError, (PrivateKeyError.AddressError v).render = v.render) ∧
    (∀ v : HdWalletError, (PrivateKeyError.HdWalletError v).render = v.render) ∧
    (∀ v : Bip39Error, (HdWalletError.Bip39Error v).render = v.render) ∧
    (∀ v : TonicError,
      strContains v.render (CosmosGrpcError.ConnectionError v).render = true) ∧
    (∀ v : Status,
      strContains v.render (CosmosGrpcError.RequestError v).render = true) ∧
    (∀ v : DecodeError,
      strContains v.render (CosmosGrpcError.DecodeError v).render = true) ∧
    (∀ v : PrivateKeyError,
      strContains v.debugRender (CosmosGrpcError.SigningError v).render = true) ∧
    (∀ v : ParseBigIntError,
      strContains v.debugRender (CosmosGrpcError.ParseError v).render = true) := by
  refine ⟨?_, ?_, ?_, ?_, ?_, ?_, ?_, ?_, ?_, ?_,
    fun _ => rfl, fun _ => rfl, fun _ => rfl, fun _ => rfl, ?_, ?_, ?_, ?_, ?_⟩
  · exact fun v => strContains_right v.render ("HexDecodeError ")
  · exact fun v => strContains_right v.render ("Prefix too long ")
  · exact fun v => strContains_right v.render ("HexDecodeError ")
  · exact fun v => strContains_right v.render ("Base64DecodeError ")
  · exact fun v => strContains_right v.render ("Prefix too long ")
  · exact fun v => strContains_right v.render ("ByteDecodeError ")
  · exact fun v => strContains_right v.render ("ByteParseError ")
  · exact fun v => strContains_right v.render ("PrivateKeyError ")
  · exact fun v => strContains_right v.render ("Secp256k1 Error ")
  · exact fun v => strContains_right v.render ("Could not encode message ")
  · intro v
    simp only [CosmosGrpcError.render, str_append_assoc]
    exact strContains_middle _ _ _
  · intro v
    simp only [CosmosGrpcError.render, str_append_assoc]
    exact strContains_middle _ _ _
  · exact fun v => strContains_right v.render ("CosmosGrpc bad any unpacking ")
  · exact fun v => strContains_right v.debugRender ("CosmosGrpc could not sign using private key ")
  · exact fun v => strContains_right v.debugRender ("Failed to Parse BigInt ")

/-- Claim C6: transport connection failures convert to exactly
`ConnectionError`, node-reported API failures to exactly `RequestError`,
and signing-key failures to exactly `SigningError`, each conversion total
and wrapping the original failure. -/
theorem c6_client_facing_conversions :
    (∀ v : TonicError,
      CosmosGrpcError.fromTonicError v = CosmosGrpcError.ConnectionError v) ∧
    (∀ v : Status, CosmosGrpcError.fromStatus v = CosmosGrpcError.RequestError v) ∧
    (∀ v : PrivateKeyError,
      CosmosGrpcError.fromPrivateKeyError v = CosmosGrpcError.SigningError v) :=
  ⟨fun _ => rfl, fun _ => rfl, fun _ => rfl⟩

/-- Claim C7: the conversion from `AddressError` to `PublicKeyError`
maps every variant verbatim to the same-named variant (payloads
preserved), and every `PublicKeyError` is either the image of an
`AddressError` or the additional `Base64DecodeError` variant. -/
theorem c7_address_to_publickey_verbatim :
    (PublicKeyError.fromAddressError AddressError.Bech32WrongLength =
      PublicKeyError.Bech32WrongLength) ∧
    (PublicKeyError.fromAddressError AddressError.Bech32InvalidBase32 =
      PublicKeyError.Bech32InvalidBase32) ∧
    (PublicKeyError.fromAddressError AddressError.Bech32InvalidEncoding =
      PublicKeyError.Bech32InvalidEncoding) ∧
    (∀ v : ByteDecodeError,
      PublicKeyError.fromAddressError (AddressError.HexDecodeError v) =
        PublicKeyError.HexDecodeError v) ∧
    (PublicKeyError.fromAddressError AddressError.HexDecodeErrorWrongLength =
      PublicKeyError.HexDecodeErrorWrongLength) ∧
    (∀ v : ArrayStringError,
      PublicKeyError.fromAddressError (AddressError.PrefixTooLong v) =
        PublicKeyError.PrefixTooLong v) ∧
    (PublicKeyError.fromAddressError AddressError.BytesDecodeErrorWrongLength =
      PublicKeyError.BytesDecodeErrorWrongLength) ∧
    (∀ p : PublicKeyError,
      (∃ a, p = PublicKeyError.fromAddressError a) ∨
      ∃ b, p = PublicKeyError.Base64DecodeError b) := by
  refine ⟨rfl, rfl, rfl, fun _ => rfl, rfl, fun _ => rfl, rfl, ?_⟩
  intro p
  cases p with
  | Bech32WrongLength => exact Or.inl ⟨AddressError.Bech32WrongLength, rfl⟩
  | Bech32InvalidBase32 => exact Or.inl ⟨AddressError.Bech32InvalidBase32, rfl⟩
  | Bech32InvalidEncoding => exact Or.inl ⟨AddressError.Bech32InvalidEncoding, rfl⟩
  | HexDecodeError v => exact Or.inl ⟨AddressError.HexDecodeError v, rfl⟩
  | Base64DecodeError b => exact Or.inr ⟨b, rfl⟩
  | HexDecodeErrorWrongLength =>
    exact Or.inl ⟨AddressError.HexDecodeErrorWrongLength, rfl⟩
  | BytesDecodeErrorWrongLength =>
    exact Or.inl ⟨AddressError.BytesDecodeErrorWrongLength, rfl⟩
  | PrefixTooLong v => exact Or.inl ⟨AddressError.PrefixTooLong v, rfl⟩

/-- Claim C8: a candidate seed phrase whose word count is not a multiple
of the configured group size fails mnemonic validation with
`BadWordCount` carrying the actual word count. -/
theorem c8_bad_word_count (groupSize : Nat) (inWordlist : String → Bool)
    (entropyBits : List String → Nat) (checksumOk : List String → Bool)
    (candidateLangs : List Language) (words : List String)
    (h : words.length % groupSize ≠ 0) :
    validateMnemonic groupSize inWordlist entropyBits checksumOk candidateLangs words =
      Except.error (Bip39Error.BadWordCount words.length) := by
  simp [validateMnemonic, h]

/-- Claim C8 witness: a 13-word phrase with groups of 6 yields
`BadWordCount 13`. -/
theorem c8_bad_word_count_witness :
    (List.replicate 13 ("w")).length % 6 ≠ 0 ∧
    validateMnemonic 6 (fun _ => true) (fun _ => 0) (fun _ => true)
      ([] : List Language) (List.replicate 13 ("w")) =
      Except.error (Bip39Error.BadWordCount 13) := by
  constructor
  · decide
  · have h := c8_bad_word_count 6 (fun _ => true) (fun _ => 0) (fun _ => true)
      ([] : List Language) (List.replicate 13 ("w")) (by decide)
    simpa using h

/-- Claim C9: every `ArrayStringError` converts into the client-facing
error type as the payload-free `InvalidPrefix` variant, carrying no
wrapped child value. -/
theorem c9_prefix_payload_dropped :
    ∀ e : ArrayStringError,
      CosmosGrpcError.fromArrayStringError e = CosmosGrpcError.InvalidPrefix :=
  fun _ => rfl

/-- Claim C10: the bech32 classifications of the address layer and the
public-key layer select same-named variants on every bech32 codec
error. -/
theorem c10_layer_agreement :
    ∀ e : Bech32Error,
      (AddressError.fromBech32Error e).bech32Class =
        (PublicKeyError.fromBech32Error e).bech32Class ∧
      ((AddressError.fromBech32Error e).bech32Class).isSome = true := by
  intro e
  cases e <;> exact ⟨rfl, rfl⟩

/-- Claim C3: for every run of the Transaction-Confirmation Protocol the
single outcome is characterised by the polled observations and the
deadline `numPolls * interval` is never exceeded: `NoBlockProduced`
occurs exactly when no poll saw a new block (and none saw the
transaction), `TransactionFailed` exactly when some poll saw a block but
none saw the transaction, both reporting elapsed time equal to the
deadline and therefore mutually exclusive; and when the transaction is
included, a result payload flagging insufficient fees yields
`InsufficientFees` instead of a confirmed success. -/
theorem c3_confirmation_protocol :
    ∀ (env : Nat → PollStep) (tx : TxResponse) (numPolls interval : Nat),
      ((∃ d, confirmTx env tx numPolls interval =
          Except.error (CosmosGrpcError.NoBlockProduced d)) ↔
        (∀ k, k < numPolls → (env k).included = none ∧ (env k).newBlock = false)) ∧
      (∀ d, confirmTx env tx numPolls interval =
          Except.error (CosmosGrpcError.NoBlockProduced d) →
          d.millis = numPolls * interval) ∧
      ((∃ d, confirmTx env tx numPolls interval =
          Except.error (CosmosGrpcError.TransactionFailed tx d)) ↔
        ((∀ k, k < numPolls → (env k).included = none) ∧
          ∃ k, k < numPolls ∧ (env k).newBlock = true)) ∧
      (∀ d, confirmTx env tx numPolls interval =
          Except.error (CosmosGrpcError.TransactionFailed tx d) →
          d.millis = numPolls * interval) ∧
      (∀ k out, k < numPolls → (∀ m, m < k → (env m).included = none) →
        (env k).included = some out →
        ((out.insufficientFee = true →
            confirmTx env tx numPolls interval =
              Except.error (CosmosGrpcError.InsufficientFees out.feeInfo)) ∧
         (out.insufficientFee = false →
            confirmTx env tx numPolls interval = Except.ok out.payload))) ∧
      ¬((∃ d, confirmTx env tx numPolls interval =
            Except.error (CosmosGrpcError.NoBlockProduced d)) ∧
        ∃ d, confirmTx env tx numPolls interval =
            Except.error (CosmosGrpcError.TransactionFailed tx d)) := by
  intro env tx n iv
  refine ⟨⟨?_, ?_⟩, ?_, ⟨?_, ?_⟩, ?_, ?_, ?_⟩
  · rintro ⟨d, hd⟩ k hk
    obtain ⟨-, hall, -⟩ := confirmStep_nbp_inv env tx iv n 0 false d hd
    simpa using hall k hk
  · intro hall
    refine ⟨⟨n * iv⟩, ?_⟩
    have h := confirmStep_all_quiet env tx iv n 0 (by intro k hk; simpa using hall k hk)
    simpa [confirmTx] using h
  · intro d hd
    obtain ⟨-, -, hd'⟩ := confirmStep_nbp_inv env tx iv n 0 false d hd
    rw [hd']
    simp
  · rintro ⟨d, hd⟩
    obtain ⟨-, hall, hor, -⟩ := confirmStep_tf_inv env tx iv n 0 false tx d hd
    rcases hor with hb | ⟨k, hk, hnb⟩
    · exact absurd hb (by simp)
    · exact ⟨fun k hk => by simpa using hall k hk, ⟨k, hk, by simpa using hnb⟩⟩
  · rintro ⟨hall, k, hk, hnb⟩
    refine ⟨⟨n * iv⟩, ?_⟩
    have h := confirmStep_block_seen env tx iv n 0 false
      (by intro m hm; simpa using hall m hm) ⟨k, hk, by simpa using hnb⟩
    simpa [confirmTx] using h
  · intro d hd
    obtain ⟨-, -, -, hd'⟩ := confirmStep_tf_inv env tx iv n 0 false tx d hd
    rw [hd']
    simp
  · intro k out hk hnone hsome
    have h := confirmStep_inclusion env tx iv n 0 false k out hk
      (by intro m hm; simpa using hnone m hm) (by simpa using hsome)
    constructor
    · intro hfee
      show confirmStep env tx iv n 0 false = _
      rw [h, hfee]
      simp
    · intro hfee
      show confirmStep env tx iv n 0 false = _
      rw [h, hfee]
      simp
  · rintro ⟨⟨d1, h1⟩, ⟨d2, h2⟩⟩
    rw [h1] at h2
    simp at h2

/-- Claim C3 witness: with one poll observing the transaction included
but flagged as underfunded, the protocol emits `InsufficientFees`. -/
theorem c3_confirmation_protocol_witness :
    (0 : Nat) < 1 ∧
    confirmTx (fun i => ⟨false, if i = 0 then some ⟨⟨"p"⟩, true, ⟨"f"⟩⟩ else none⟩)
      ⟨"t"⟩ 1 5 =
      Except.error (CosmosGrpcError.InsufficientFees ⟨"f"⟩) := by
  refine ⟨by decide, ?_⟩
  have h := (c3_confirmation_protocol
      (fun i => ⟨false, if i = 0 then some ⟨⟨"p"⟩, true, ⟨"f"⟩⟩ else none⟩)
      ⟨"t"⟩ 1 5).2.2.2.2.1 0 ⟨⟨"p"⟩, true, ⟨"f"⟩⟩ (by decide)
      (fun m hm => absurd hm (Nat.not_lt_zero m)) (by simp)
  exact h.1 rfl

end DeepSpace
